import Mathlib

/-!
# Verification of the Meta-2030 dashboard (`webapp.py`)

Shallow embedding of the data-shaping core of `webapp.py`:
the Notion property decoders `extrair_valor` and `extrair_status`,
the aggregation `calcular_metricas`, and the table construction
performed in `main` (`projetos_lista`).

JSON payloads are modelled by the inductive type `Json`; the Python
dictionary/list primitives the code relies on (`dict.get`, indexing,
truthiness, `len`, `+` on numbers, `>` against `0`) are modelled by
`py*` functions returning `Except String _`, where `.error` stands for
a raised Python exception (the message names the exception class).
Python numbers are modelled by `ℚ` (Python `bool` is numeric: `True`
counts as `1`).  `datetime.now().year` is modelled as an explicit
parameter `ano_atual`.
-/

/-- A JSON value, as produced by `response.json()` in `webapp.py`. -/
inductive Json where
  | null
  | num (q : ℚ)
  | str (s : String)
  | bool (b : Bool)
  | arr (elems : List Json)
  | obj (fields : List (String × Json))

/-- Python `v is None` / `v is not None` tests. -/
def Json.isNull : Json → Bool
  | .null => true
  | _ => false

/-- Python `v == s` for a string literal `s`: true exactly when `v` is that string. -/
def Json.eqStr : Json → String → Bool
  | .str t, s => t == s
  | _, _ => false

/-- Python `d.get(k, default)`: on a dict returns the stored value or the
default; on any non-dict value `.get` raises `AttributeError`. -/
def pyGetD : Json → String → Json → Except String Json
  | .obj kvs, k, d => .ok ((kvs.lookup k).getD d)
  | _, _, _ => .error "AttributeError"

/-- Python `d.get(k)` (implicit default `None`). -/
def pyGet (j : Json) (k : String) : Except String Json :=
  pyGetD j k .null

/-- Python `x[0]`: list/string indexing, `KeyError` on a JSON-object dict
(whose keys are strings, never `0`), `TypeError` otherwise. -/
def pyIndex0 : Json → Except String Json
  | .arr (x :: _) => .ok x
  | .arr [] => .error "IndexError"
  | .str s =>
    match s.data with
    | c :: _ => .ok (.str (String.mk [c]))
    | [] => .error "IndexError"
  | .obj _ => .error "KeyError"
  | _ => .error "TypeError"

/-- Python `for x in v`: lists yield elements, strings yield one-character
strings, dicts yield their keys; other values raise `TypeError`. -/
def pyIter : Json → Except String (List Json)
  | .arr xs => .ok xs
  | .str s => .ok (s.data.map fun c => .str (String.mk [c]))
  | .obj kvs => .ok (kvs.map fun kv => .str kv.1)
  | _ => .error "TypeError"

/-- Python truthiness `if v:`. -/
def pyTruthy : Json → Bool
  | .null => false
  | .num q => q != 0
  | .str s => s != ""
  | .bool b => b
  | .arr xs => !xs.isEmpty
  | .obj kvs => !kvs.isEmpty

/-- Python `len(v)`; `TypeError` on numbers, booleans and `None`. -/
def pyLen : Json → Except String ℕ
  | .str s => .ok s.length
  | .arr xs => .ok xs.length
  | .obj kvs => .ok kvs.length
  | _ => .error "TypeError"

/-- The numeric reading of a Python value, when it has one
(`bool` is a subtype of `int` in Python: `True` reads as `1`). -/
def pyNumVal : Json → Option ℚ
  | .num q => some q
  | .bool b => some (if b then 1 else 0)
  | _ => none

/-- Python `t + v` for a numeric accumulator `t`; `TypeError` when `v`
is not numeric. -/
def pyAdd (t : ℚ) (v : Json) : Except String ℚ :=
  match pyNumVal v with
  | some q => .ok (t + q)
  | none => .error "TypeError"

/-- Python `v > 0`; `TypeError` when `v` is not numeric. -/
def pyGtZ (v : Json) : Except String Bool :=
  match pyNumVal v with
  | some q => .ok (decide (0 < q))
  | none => .error "TypeError"

mutual

/-- Python `==` on JSON values (used for dict-key equality). -/
def jeq : Json → Json → Bool
  | .null, .null => true
  | .num a, .num b => a == b
  | .str a, .str b => a == b
  | .bool a, .bool b => a == b
  | .arr xs, .arr ys => jeqList xs ys
  | .obj xs, .obj ys => jeqFields xs ys
  | _, _ => false

def jeqList : List Json → List Json → Bool
  | [], [] => true
  | x :: xs, y :: ys => jeq x y && jeqList xs ys
  | _, _ => false

def jeqFields : List (String × Json) → List (String × Json) → Bool
  | [], [] => true
  | (k, v) :: xs, (l, w) :: ys => k == l && jeq v w && jeqFields xs ys
  | _, _ => false

end

/-- Python `hist[k] = hist.get(k, 0) + 1` on an insertion-ordered dict. -/
def bump : List (Json × ℕ) → Json → List (Json × ℕ)
  | [], k => [(k, 1)]
  | (k', n) :: rest, k =>
    if jeq k k' then (k', n + 1) :: rest else (k', n) :: bump rest k

/-- Constant `META_FINANCEIRA = 20000000` (webapp.py line 31). -/
def META_FINANCEIRA : ℚ := 20000000

/-- The loop `for item in array: ...` inside the rollup-array branch of
`extrair_valor` (webapp.py lines 87-99), threading the running `total`. -/
def rollupArraySum : List Json → ℚ → Except String ℚ
  | [], total => .ok total
  | item :: rest, total => do
    let ty ← pyGet item "type"
    if ty.eqStr "number" then
      let valor ← pyGet item "number"
      if valor.isNull then
        rollupArraySum rest total
      else
        let total' ← pyAdd total valor
        rollupArraySum rest total'
    else if ty.eqStr "rollup" then
      let inner_rollup ← pyGetD item "rollup" (.obj [])
      let ity ← pyGet inner_rollup "type"
      if ity.eqStr "number" then
        let valor ← pyGet inner_rollup "number"
        if valor.isNull then
          rollupArraySum rest total
        else
          let total' ← pyAdd total valor
          rollupArraySum rest total'
      else
        rollupArraySum rest total
    else
      rollupArraySum rest total

/-- Embedding of `extrair_valor(props, nome_campo)` (webapp.py lines 64-107). -/
def extrair_valor (props : Json) (nome_campo : String) : Except String Json := do
  let campo ← pyGetD props nome_campo (.obj [])
  let ty ← pyGet campo "type"
  if ty.eqStr "number" then
    let valor ← pyGet campo "number"
    if !valor.isNull then
      return valor
  let rollup ← pyGetD campo "rollup" (.obj [])
  let rollup_type ← pyGetD rollup "type" (.str "")
  if rollup_type.eqStr "number" then
    let valor ← pyGet rollup "number"
    if !valor.isNull then
      return valor
  if rollup_type.eqStr "array" then
    let array ← pyGetD rollup "array" (.arr [])
    let items ← pyIter array
    let total ← rollupArraySum items 0
    return Json.num total
  let valor ← pyGet campo "number"
  if !valor.isNull then
    return valor
  return Json.num 0

/-- Embedding of `extrair_status(props)` (webapp.py lines 110-118). -/
def extrair_status (props : Json) : Except String Json := do
  let st ← pyGetD props "Status" (.obj [])
  let status_rollup ← pyGetD st "rollup" (.obj [])
  let array ← pyGetD status_rollup "array" (.arr [])
  if pyTruthy array then
    let primeiro ← pyIndex0 array
    let ty ← pyGet primeiro "type"
    if ty.eqStr "status" then
      let stObj ← pyGetD primeiro "status" (.obj [])
      let name ← pyGetD stObj "name" (.str "Sem status")
      return name
  return Json.str "Sem status"

/-- Accumulator of the Meta-Financeira loop of `calcular_metricas`
(webapp.py lines 149-168): `fechado_valor`, `potencial_valor`, `fechados`. -/
structure MetaAcc where
  fechado_valor : ℚ
  potencial_valor : ℚ
  fechados : ℕ

/-- One iteration of the Meta-Financeira loop of `calcular_metricas`
(webapp.py lines 153-168).  The `and` of line 163 and the `elif` of
line 167 short-circuit exactly as in Python. -/
def metaStep (acc : MetaAcc) (m : Json) : Except String MetaAcc := do
  let props ← pyGetD m "properties" (.obj [])
  let status ← extrair_status props
  let realizado ← extrair_valor props "Realizado"
  let _valor ← extrair_valor props "Valor"
  let potencial ← extrair_valor props "Potencial"
  let isClosed ← if status.eqStr "Contratado" then pyGtZ realizado else pure false
  if isClosed then
    let fv ← pyAdd acc.fechado_valor realizado
    return { acc with fechado_valor := fv, fechados := acc.fechados + 1 }
  else
    let gtp ← pyGtZ potencial
    if gtp then
      let pv ← pyAdd acc.potencial_valor potencial
      return { acc with potencial_valor := pv }
    else
      return acc

/-- Embedding of `props.get('Status', \x7b\x7d).get('status', \x7b\x7d).get('name', 'Sem status')`
(webapp.py lines 173 and 290). -/
def projStatus (props : Json) : Except String Json := do
  let a ← pyGetD props "Status" (.obj [])
  let b ← pyGetD a "status" (.obj [])
  pyGetD b "name" (.str "Sem status")

/-- Embedding of `props.get('Cidade', \x7b\x7d).get('select', \x7b\x7d).get('name', 'Não informada')`
(webapp.py lines 174 and 291). -/
def projCidade (props : Json) : Except String Json := do
  let a ← pyGetD props "Cidade" (.obj [])
  let b ← pyGetD a "select" (.obj [])
  pyGetD b "name" (.str "Não informada")

/-- Accumulator of the esteira loop of `calcular_metricas`
(webapp.py lines 171-182): the two histograms and `valor_total`. -/
structure ProjAcc where
  por_status : List (Json × ℕ)
  por_cidade : List (Json × ℕ)
  valor_total : ℚ

/-- One iteration of the esteira loop of `calcular_metricas`
(webapp.py lines 171-182). -/
def projStep (acc : ProjAcc) (p : Json) : Except String ProjAcc := do
  let props ← pyGetD p "properties" (.obj [])
  let status ← projStatus props
  let cidade ← projCidade props
  let valorCampo ← pyGetD props "Valor" (.obj [])
  let valor ← pyGetD valorCampo "number" (.num 0)
  let ps := bump acc.por_status status
  let pc := bump acc.por_cidade cidade
  if status.eqStr "Contratado" then
    return { por_status := ps, por_cidade := pc, valor_total := acc.valor_total }
  else
    let vt ← pyAdd acc.valor_total valor
    return { por_status := ps, por_cidade := pc, valor_total := vt }

/-- The dictionary returned by `calcular_metricas` (webapp.py lines 188-199). -/
structure Metricas where
  total : ℕ
  por_status : List (Json × ℕ)
  por_cidade : List (Json × ℕ)
  valor_total : ℚ
  fechados : ℕ
  fechado_valor : ℚ
  potencial_valor : ℚ
  restante : ℚ
  anos_restantes : ℤ
  necessario_por_ano : ℚ

/-- Embedding of `calcular_metricas(projetos, meta_financeira)` (webapp.py lines 121-199).
`datetime.now().year` is passed in as `ano_atual`.  The Meta-Financeira
loop runs before the esteira loop, as in the source; an exception in
either loop aborts the whole computation. -/
def calcular_metricas (projetos meta_financeira : List Json) (ano_atual : ℤ) :
    Except String Metricas := do
  let total := projetos.length
  let macc ← meta_financeira.foldlM metaStep ⟨0, 0, 0⟩
  let pacc ← projetos.foldlM projStep ⟨[], [], 0⟩
  let anos_restantes : ℤ := 2030 - ano_atual
  return {
    total := total
    por_status := pacc.por_status
    por_cidade := pacc.por_cidade
    valor_total := pacc.valor_total
    fechados := macc.fechados
    fechado_valor := macc.fechado_valor
    potencial_valor := macc.potencial_valor
    restante := META_FINANCEIRA - macc.fechado_valor
    anos_restantes := anos_restantes
    necessario_por_ano :=
      (META_FINANCEIRA - macc.fechado_valor) / ((max anos_restantes 1 : ℤ) : ℚ)
  }

/-- Embedding of `nome[:30] + '...' if len(nome) > 30 else nome` (webapp.py line 295):
`len` raises on non-sized values; concatenating a sliced list with the
string `'...'` raises `TypeError`; values of length at most 30 pass
through unchanged. -/
def truncNome (nome : Json) : Except String Json := do
  let n ← pyLen nome
  if n > 30 then
    match nome with
    | .str s => return Json.str (s.take 30 ++ "...")
    | _ => .error "TypeError"
  else
    return nome

/-- One row of the `Projetos Recentes` table (webapp.py lines 294-298). -/
structure Row where
  nome : Json
  status : Json
  cidade : Json

/-- The body of the table loop of `main` (webapp.py lines 287-298) for one
deal record: `none` when the record is filtered out as unnamed. -/
def mkRow (p : Json) : Except String (Option Row) := do
  let props ← pyGetD p "properties" (.obj [])
  let neg ← pyGetD props "Negocio" (.obj [])
  let title ← pyGetD neg "title" (.arr [.obj []])
  let first ← pyIndex0 title
  let nome ← pyGetD first "plain_text" (.str "Sem nome")
  let status ← projStatus props
  let cidade ← projCidade props
  if nome.eqStr "Sem nome" then
    return none
  else
    let nomeDisp ← truncNome nome
    return some ⟨nomeDisp, status, cidade⟩

/-- One iteration of the table loop of `main`: append the row produced by
`mkRow`, when the deal survives the unnamed filter. -/
def tableStep (lista : List Row) (p : Json) : Except String (List Row) := do
  match ← mkRow p with
  | some row => pure (lista ++ [row])
  | none => pure lista

/-- Embedding of `projetos_lista` as built by `main` (webapp.py lines 286-298):
the loop runs over `projetos[:15]` and appends the surviving rows. -/
def projetos_lista (projetos : List Json) : Except String (List Row) :=
  (projetos.take 15).foldlM tableStep []

/-! ## Spec-side readings

Total field access used to phrase the spec's descriptions of the
aggregation ("the status label", "the direct numeric `Valor` field"):
`jget j k d` is the value stored under `k` when `j` is a JSON object
holding `k`, and the default `d` otherwise. -/

/-- Total JSON-object field access (spec-side reading of `.get`). -/
def jget (j : Json) (k : String) (d : Json) : Json :=
  match j with
  | .obj kvs => (kvs.lookup k).getD d
  | _ => d

/-- The numeric reading of a value, defaulting to `0`. -/
def numOr0 (v : Json) : ℚ :=
  (pyNumVal v).getD 0

/-- Spec-side reading of a deal record's status label:
`properties.Status.status.name`, defaulting to `"Sem status"`. -/
def specDealStatus (p : Json) : Json :=
  jget (jget (jget (jget p "properties" (.obj [])) "Status" (.obj []))
    "status" (.obj [])) "name" (.str "Sem status")

/-- Spec-side reading of a deal record's direct numeric `Valor` field:
`properties.Valor.number`, defaulting to `0`. -/
def specDealValor (p : Json) : ℚ :=
  numOr0 (jget (jget (jget p "properties" (.obj [])) "Valor" (.obj []))
    "number" (.num 0))

/-- Spec-side contribution of one deal to the open-value total: its direct
numeric `Valor` when its status label is not `"Contratado"`, else nothing. -/
def specOpenContrib (p : Json) : ℚ :=
  if (specDealStatus p).eqStr "Contratado" then 0 else specDealValor p

/-- Spec-side open-value total over a list of deal records. -/
def specOpenSum (ps : List Json) : ℚ :=
  (ps.map specOpenContrib).sum

/-! ## Helper lemmas for inverting the `Except` computations -/

theorem exc_bind_eq_ok {α β : Type} {e : Except String α} {f : α → Except String β}
    {b : β} (h : e >>= f = .ok b) : ∃ a, e = .ok a ∧ f a = .ok b := by
  cases e with
  | ok a => exact ⟨a, rfl, h⟩
  | error s => simp [Bind.bind, Except.bind] at h

theorem pyGetD_eq_ok {j : Json} {k : String} {d v : Json}
    (h : pyGetD j k d = .ok v) : v = jget j k d := by
  cases j <;> simp_all [pyGetD, jget]

theorem projStatus_eq_ok {props s : Json} (h : projStatus props = .ok s) :
    s = jget (jget (jget props "Status" (.obj [])) "status" (.obj []))
      "name" (.str "Sem status") := by
  obtain ⟨a, ha, h⟩ := exc_bind_eq_ok h
  obtain ⟨b, hb, h⟩ := exc_bind_eq_ok h
  rw [pyGetD_eq_ok ha] at hb
  rw [pyGetD_eq_ok hb] at h
  exact pyGetD_eq_ok h

theorem ok_bind {α β : Type} (a : α) (f : α → Except String β) :
    (Except.ok a >>= f) = f a := rfl

theorem err_bind {α β : Type} (s : String) (f : α → Except String β) :
    (Except.error s >>= f : Except String β) = Except.error s := rfl

theorem pure_eq_ok {α : Type} (a : α) : (pure a : Except String α) = .ok a := rfl

theorem pyGetD_obj (kvs : List (String × Json)) (k : String) (d : Json) :
    pyGetD (.obj kvs) k d = .ok ((kvs.lookup k).getD d) := rfl

/-! ## Claims -/

/-- Claim C6. For every property container whose field has type `number` with a
non-null numeric value `v`, value extraction (`extrair_valor`) returns `v`
unchanged, regardless of any other keys present in the container. -/
theorem claim_C6_direct_number (pkvs kvs : List (String × Json)) (fld : String) (v : ℚ)
    (hf : pkvs.lookup fld = some (.obj kvs))
    (ht : kvs.lookup "type" = some (.str "number"))
    (hn : kvs.lookup "number" = some (.num v)) :
    extrair_valor (.obj pkvs) fld = .ok (.num v) := by
  simp [extrair_valor, pyGet, pyGetD_obj, hf, ht, hn, Json.eqStr, Json.isNull,
    ok_bind, pure_eq_ok]

/-- Witness for C6 at a concrete container. -/
theorem claim_C6_witness :
    ([("V", Json.obj [("type", Json.str "number"), ("number", Json.num 7)])].lookup "V"
        = some (.obj [("type", Json.str "number"), ("number", Json.num 7)])) ∧
    ([("type", Json.str "number"), ("number", Json.num 7)].lookup "type"
        = some (Json.str "number")) ∧
    ([("type", Json.str "number"), ("number", Json.num 7)].lookup "number"
        = some (Json.num 7)) ∧
    extrair_valor (.obj [("V", .obj [("type", Json.str "number"), ("number", Json.num 7)])]) "V"
      = .ok (.num 7) :=
  ⟨rfl, rfl, rfl, claim_C6_direct_number _ _ "V" 7 rfl rfl rfl⟩

/-- A property field all of whose candidate numeric values are `null`:
the direct `number`, the rollup `number`, and the fallback `number`
(the same key as the direct one) are all `null`. -/
def allNullCampo : Json :=
  .obj [("type", .str "number"), ("number", .null),
        ("rollup", .obj [("type", .str "number"), ("number", .null)])]

/-- Claim C7. `extrair_valor` returns `0` for an empty property container, for a
container lacking the requested field name, and for a container in which every
candidate numeric value (direct number, rollup number, fallback number) is
null; absence and a genuine stored zero both produce `0`. -/
theorem claim_C7_zero_default :
    (∀ fld : String, extrair_valor (.obj []) fld = .ok (.num 0)) ∧
    (∀ (pkvs : List (String × Json)) (fld : String), pkvs.lookup fld = none →
      extrair_valor (.obj pkvs) fld = .ok (.num 0)) ∧
    (∀ fld : String, extrair_valor (.obj [(fld, allNullCampo)]) fld = .ok (.num 0)) ∧
    (∀ fld : String,
      extrair_valor (.obj [(fld, .obj [("type", .str "number"), ("number", .num 0)])]) fld
        = .ok (.num 0)) := by
  refine ⟨fun fld => rfl, fun pkvs fld h => ?_, fun fld => ?_, fun fld => ?_⟩
  · simp [extrair_valor, pyGet, pyGetD_obj, h, Json.eqStr, Json.isNull, ok_bind,
      pure_eq_ok, pyGetD]
  · simp [extrair_valor, allNullCampo, pyGet, pyGetD_obj, Json.eqStr, Json.isNull,
      ok_bind, pure_eq_ok, pyGetD, List.lookup]
  · simp [extrair_valor, pyGet, pyGetD_obj, Json.eqStr, Json.isNull, ok_bind,
      pure_eq_ok, pyGetD, List.lookup]

/-- Witness for C7 at concrete containers. -/
theorem claim_C7_witness :
    ([("A", Json.null)].lookup "B" = none) ∧
    extrair_valor (.obj []) "Realizado" = .ok (.num 0) ∧
    extrair_valor (.obj [("A", .null)]) "B" = .ok (.num 0) ∧
    extrair_valor (.obj [("Potencial", allNullCampo)]) "Potencial" = .ok (.num 0) ∧
    extrair_valor (.obj [("V", .obj [("type", .str "number"), ("number", .num 0)])]) "V"
      = .ok (.num 0) :=
  ⟨rfl, claim_C7_zero_default.1 "Realizado",
    claim_C7_zero_default.2.1 [("A", .null)] "B" rfl,
    claim_C7_zero_default.2.2.1 "Potencial",
    claim_C7_zero_default.2.2.2 "V"⟩

/-- Claim C1. For every financial-goal record (with status label `s`, extracted
`Realizado` value `r`, `Valor` value `v` and `Potencial` value `q`), one step
of the Meta-Financeira loop of `calcular_metricas` classifies the record as
closed exactly when `s = "Contratado"` and `r > 0`; a closed record adds
exactly `r` to the closed total and increments the closed count, contributing
nothing to the potential total even when `q > 0`; a record not classified as
closed with `q > 0` adds exactly `q` to the potential total and nothing
elsewhere; no record contributes to both totals. -/
theorem claim_C1_closed_vs_potential (m props : Json) (s : String) (r v q fv pv : ℚ)
    (f : ℕ)
    (hprops : pyGetD m "properties" (.obj []) = .ok props)
    (hstatus : extrair_status props = .ok (.str s))
    (hr : extrair_valor props "Realizado" = .ok (.num r))
    (hv : extrair_valor props "Valor" = .ok (.num v))
    (hq : extrair_valor props "Potencial" = .ok (.num q)) :
    metaStep ⟨fv, pv, f⟩ m = .ok (
      if s = "Contratado" ∧ 0 < r then ⟨fv + r, pv, f + 1⟩
      else if 0 < q then ⟨fv, pv + q, f⟩
      else ⟨fv, pv, f⟩) := by
  by_cases hs : s = "Contratado"
  · subst hs
    by_cases hr0 : (0 : ℚ) < r
    · simp [metaStep, hprops, hstatus, hr, hv, hq, ok_bind, pure_eq_ok,
        Json.eqStr, pyGtZ, pyNumVal, pyAdd, hr0]
    · by_cases hq0 : (0 : ℚ) < q
      · simp [metaStep, hprops, hstatus, hr, hv, hq, ok_bind, pure_eq_ok,
          Json.eqStr, pyGtZ, pyNumVal, pyAdd, hr0, hq0]
      · simp [metaStep, hprops, hstatus, hr, hv, hq, ok_bind, pure_eq_ok,
          Json.eqStr, pyGtZ, pyNumVal, pyAdd, hr0, hq0]
  · by_cases hq0 : (0 : ℚ) < q
    · simp [metaStep, hprops, hstatus, hr, hv, hq, ok_bind, pure_eq_ok,
        Json.eqStr, pyGtZ, pyNumVal, pyAdd, hs, hq0]
    · simp [metaStep, hprops, hstatus, hr, hv, hq, ok_bind, pure_eq_ok,
        Json.eqStr, pyGtZ, pyNumVal, pyAdd, hs, hq0]

/-- Properties of a concrete closed financial-goal record: status
`Contratado`, `Realizado = 7`, `Potencial = 3` (both populated). -/
def metaPropsEx : Json :=
  .obj [("Status", .obj [("rollup", .obj [("array", .arr
          [.obj [("type", .str "status"), ("status", .obj [("name", .str "Contratado")])]])])]),
        ("Realizado", .obj [("type", .str "number"), ("number", .num 7)]),
        ("Potencial", .obj [("type", .str "number"), ("number", .num 3)])]

/-- A concrete closed financial-goal record wrapping `metaPropsEx`. -/
def metaRecEx : Json := .obj [("properties", metaPropsEx)]

/-- Witness for C1: the concrete record `metaRecEx` is classified closed,
adds its `Realizado` to the closed total, and contributes nothing to the
potential total although `Potencial = 3 > 0`. -/
theorem claim_C1_witness :
    extrair_status metaPropsEx = .ok (.str "Contratado") ∧
    extrair_valor metaPropsEx "Realizado" = .ok (.num 7) ∧
    extrair_valor metaPropsEx "Potencial" = .ok (.num 3) ∧
    metaStep ⟨0, 0, 0⟩ metaRecEx = .ok ⟨0 + 7, 0, 0 + 1⟩ := by
  refine ⟨rfl, rfl, rfl, ?_⟩
  have h := claim_C1_closed_vs_potential metaRecEx metaPropsEx "Contratado" 7 0 3 0 0 0
    rfl rfl rfl rfl rfl
  rw [if_pos ⟨rfl, by decide⟩] at h
  exact h

/-- Properties of a closed financial-goal record worth 5,000,000. -/
def metaProps5M : Json :=
  .obj [("Status", .obj [("rollup", .obj [("array", .arr
          [.obj [("type", .str "status"), ("status", .obj [("name", .str "Contratado")])]])])]),
        ("Realizado", .obj [("type", .str "number"), ("number", .num 5000000)])]

/-- A closed financial-goal record worth 5,000,000. -/
def metaRec5M : Json := .obj [("properties", metaProps5M)]

/-- The metrics snapshot produced from no deals and the single goal record
`metaRec5M` in year 2025. -/
def metricas5M : Metricas :=
  { total := 0, por_status := [], por_cidade := [], valor_total := 0,
    fechados := 1, fechado_valor := 5000000, potencial_valor := 0,
    restante := 15000000, anos_restantes := 5,
    necessario_por_ano := 3000000 }

/-- Claim C2. For every pair of input lists and every current year, the metrics
snapshot satisfies: `restante = 20,000,000 - fechado_valor` and
`necessario_por_ano = restante / max (2030 - ano) 1`; for any current year
`≥ 2030` the divisor is `1`, so `necessario_por_ano = restante`; and with
closed total 5,000,000 and current year 2025 the required-per-year is
3,000,000. -/
theorem claim_C2_target_arithmetic :
    (∀ (projetos meta_financeira : List Json) (ano_atual : ℤ) (m : Metricas),
        calcular_metricas projetos meta_financeira ano_atual = .ok m →
        m.restante = META_FINANCEIRA - m.fechado_valor ∧
        m.anos_restantes = 2030 - ano_atual ∧
        m.necessario_por_ano = m.restante / ((max m.anos_restantes 1 : ℤ) : ℚ) ∧
        (2030 ≤ ano_atual → m.necessario_por_ano = m.restante)) ∧
    (∃ m : Metricas, calcular_metricas [] [metaRec5M] 2025 = .ok m ∧
        m.fechado_valor = 5000000 ∧ m.necessario_por_ano = 3000000) := by
  constructor
  · intro projetos meta_financeira ano_atual m h
    simp only [calcular_metricas] at h
    obtain ⟨macc, hmf, h⟩ := exc_bind_eq_ok h
    obtain ⟨pacc, hpf, h⟩ := exc_bind_eq_ok h
    rw [pure_eq_ok] at h
    injection h with h
    subst h
    refine ⟨rfl, rfl, rfl, fun hy => ?_⟩
    have h1 : max (2030 - ano_atual) 1 = 1 := by omega
    simp only [Metricas.necessario_por_ano, Metricas.restante, h1]
    simp
  · have h1 : extrair_status metaProps5M = .ok (.str "Contratado") := rfl
    have h2 : extrair_valor metaProps5M "Realizado" = .ok (.num 5000000) := rfl
    have h3 : extrair_valor metaProps5M "Valor" = .ok (.num 0) := rfl
    have h4 : extrair_valor metaProps5M "Potencial" = .ok (.num 0) := rfl
    have hprops : pyGetD metaRec5M "properties" (.obj []) = .ok metaProps5M := rfl
    refine ⟨metricas5M, ?_, rfl, rfl⟩
    simp only [metricas5M]
    simp only [calcular_metricas, List.foldlM, metaStep, hprops, h1, h2, h3, h4,
      ok_bind, pure_eq_ok, Json.eqStr]
    norm_num [pyGtZ, pyNumVal, pyAdd, ok_bind, pure_eq_ok, META_FINANCEIRA,
      Metricas.mk.injEq]

/-- Witness input for C2: the empty snapshot in year 2029. -/
def metricasEmpty2029 : Metricas :=
  { total := 0, por_status := [], por_cidade := [], valor_total := 0,
    fechados := 0, fechado_valor := 0, potencial_valor := 0,
    restante := META_FINANCEIRA - 0, anos_restantes := 2030 - 2029,
    necessario_por_ano := (META_FINANCEIRA - 0) / ((max (2030 - 2029 : ℤ) 1 : ℤ) : ℚ) }

/-- Witness for C2 at the concrete input `([], [], 2029)`. -/
theorem claim_C2_witness :
    calcular_metricas [] [] 2029 = .ok metricasEmpty2029 ∧
    (metricasEmpty2029.restante = META_FINANCEIRA - metricasEmpty2029.fechado_valor ∧
      metricasEmpty2029.anos_restantes = 2030 - 2029 ∧
      metricasEmpty2029.necessario_por_ano
        = metricasEmpty2029.restante / ((max metricasEmpty2029.anos_restantes 1 : ℤ) : ℚ) ∧
      (2030 ≤ (2029 : ℤ) → metricasEmpty2029.necessario_por_ano = metricasEmpty2029.restante)) :=
  ⟨rfl, claim_C2_target_arithmetic.1 [] [] 2029 metricasEmpty2029 rfl⟩

theorem pyAdd_eq_ok {t : ℚ} {v : Json} {r : ℚ} (h : pyAdd t v = .ok r) :
    r = t + numOr0 v := by
  cases hv : pyNumVal v with
  | none => simp [pyAdd, hv] at h
  | some q => simp_all [pyAdd, hv, numOr0]

/-- Whenever one step of the esteira loop succeeds, it adds exactly the
spec-side open contribution of the deal to `valor_total`. -/
theorem projStep_valor_total {acc acc' : ProjAcc} {p : Json}
    (h : projStep acc p = .ok acc') :
    acc'.valor_total = acc.valor_total + specOpenContrib p := by
  simp only [projStep] at h
  obtain ⟨props, hprops, h⟩ := exc_bind_eq_ok h
  obtain ⟨status, hst, h⟩ := exc_bind_eq_ok h
  obtain ⟨cidade, hcid, h⟩ := exc_bind_eq_ok h
  obtain ⟨valorCampo, hvc, h⟩ := exc_bind_eq_ok h
  obtain ⟨valor, hv, h⟩ := exc_bind_eq_ok h
  have hsd : specDealStatus p = status := by
    simp only [specDealStatus]
    rw [projStatus_eq_ok hst, pyGetD_eq_ok hprops]
  have hvd : specDealValor p = numOr0 valor := by
    simp only [specDealValor]
    rw [pyGetD_eq_ok hv, pyGetD_eq_ok hvc, pyGetD_eq_ok hprops]
  cases hC : Json.eqStr status "Contratado" with
  | true =>
    simp only [hC, if_true, pure_eq_ok] at h
    injection h with h
    subst h
    simp [specOpenContrib, hsd, hC]
  | false =>
    simp only [hC, Bool.false_eq_true, if_false] at h
    obtain ⟨vt, hvt, h⟩ := exc_bind_eq_ok h
    rw [pure_eq_ok] at h
    injection h with h
    subst h
    simp [specOpenContrib, hsd, hC, hvd, pyAdd_eq_ok hvt]

/-- Folding the esteira loop over a deal list adds the spec-side open sum. -/
theorem projFold_valor_total (ps : List Json) :
    ∀ (acc res : ProjAcc), ps.foldlM projStep acc = .ok res →
      res.valor_total = acc.valor_total + specOpenSum ps := by
  induction ps with
  | nil =>
    intro acc res h
    rw [List.foldlM_nil, pure_eq_ok] at h
    injection h with h
    subst h
    simp [specOpenSum]
  | cons p ps ih =>
    intro acc res h
    rw [List.foldlM_cons] at h
    obtain ⟨acc1, h1, h2⟩ := exc_bind_eq_ok h
    have := ih acc1 res h2
    rw [this, projStep_valor_total h1]
    simp [specOpenSum]
    ring

/-- A deal record with status `Contratado` and direct value 100. -/
def dealContratado100 : Json :=
  .obj [("properties", .obj
    [("Status", .obj [("status", .obj [("name", .str "Contratado")])]),
     ("Valor", .obj [("number", .num 100)])])]

/-- A deal record with status `Entrada` and direct value 50. -/
def dealEntrada50 : Json :=
  .obj [("properties", .obj
    [("Status", .obj [("status", .obj [("name", .str "Entrada")])]),
     ("Valor", .obj [("number", .num 50)])])]

/-- The metrics snapshot for the two-deal example of C3 (year 2025). -/
def metricasDeals : Metricas :=
  { total := 2,
    por_status := bump (bump [] (.str "Contratado")) (.str "Entrada"),
    por_cidade := bump (bump [] (.str "Não informada")) (.str "Não informada"),
    valor_total := 0 + 50,
    fechados := 0, fechado_valor := 0, potencial_valor := 0,
    restante := META_FINANCEIRA - 0,
    anos_restantes := 2030 - 2025,
    necessario_por_ano := (META_FINANCEIRA - 0) / ((max (2030 - 2025 : ℤ) 1 : ℤ) : ℚ) }

/-- Claim C3. Whenever the aggregation succeeds, its open-value total equals the
sum of the direct numeric `Valor` field over exactly those deals whose status
label is not `"Contratado"`; in particular for the two-deal input
`[{status: Contratado, value: 100}, {status: Entrada, value: 50}]` the
open-value total is 50. -/
theorem claim_C3_open_value :
    (∀ (projetos meta_financeira : List Json) (ano_atual : ℤ) (m : Metricas),
      calcular_metricas projetos meta_financeira ano_atual = .ok m →
      m.valor_total = specOpenSum projetos) ∧
    (∃ m : Metricas,
      calcular_metricas [dealContratado100, dealEntrada50] [] 2025 = .ok m ∧
      m.valor_total = 50) := by
  constructor
  · intro projetos meta_financeira ano_atual m h
    simp only [calcular_metricas] at h
    obtain ⟨macc, hmf, h⟩ := exc_bind_eq_ok h
    obtain ⟨pacc, hpf, h⟩ := exc_bind_eq_ok h
    rw [pure_eq_ok] at h
    injection h with h
    subst h
    have := projFold_valor_total projetos _ _ hpf
    simpa using this
  · exact ⟨metricasDeals, rfl, by simp [metricasDeals]⟩

/-- Witness for C3 at the concrete input `([dealEntrada50], [], 2029)`. -/
theorem claim_C3_witness :
    calcular_metricas [dealEntrada50] [] 2029 = .ok
      { total := 1, por_status := bump [] (.str "Entrada"),
        por_cidade := bump [] (.str "Não informada"), valor_total := 0 + 50,
        fechados := 0, fechado_valor := 0, potencial_valor := 0,
        restante := META_FINANCEIRA - 0, anos_restantes := 2030 - 2029,
        necessario_por_ano :=
          (META_FINANCEIRA - 0) / ((max (2030 - 2029 : ℤ) 1 : ℤ) : ℚ) } ∧
    (0 : ℚ) + 50 = specOpenSum [dealEntrada50] :=
  ⟨rfl, claim_C3_open_value.1 [dealEntrada50] [] 2029 _ rfl⟩

/-- A property container whose `Status` field is a rollup with the given
`array` value. -/
def mkStatusProps (array : Json) : Json :=
  .obj [("Status", .obj [("rollup", .obj [("array", array)])])]

/-- Claim C8, counterexample. The claim says status extraction returns the
sentinel in every case where the first array element is not status-typed; but
for the non-mapping first element `5` the code raises `AttributeError`
(`.get` on an `int`) instead of returning the sentinel. -/
theorem claim_C8_counterexample :
    extrair_status (mkStatusProps (.arr [.num 5])) = .error "AttributeError" ∧
    extrair_status (mkStatusProps (.arr [.num 5])) ≠ .ok (.str "Sem status") := by
  refine ⟨rfl, fun h => ?_⟩
  have h0 : extrair_status (mkStatusProps (.arr [.num 5])) = .error "AttributeError" := rfl
  exact Except.noConfusion (h0.symm.trans h)

/-- Claim C8, amended. Status extraction looks only at the first element of the
`Status` rollup array: it returns that element's status label when the element
is a mapping of type `status` whose `status` value carries a `name`, and
returns the sentinel `"Sem status"` when the array is absent or empty, when a
mapping first element is not status-typed, or when the `name` key is missing;
later array elements are never inspected.  (A non-mapping first element makes
extraction raise instead — see the counterexample.) -/
theorem claim_C8_status_first_element :
    (∀ (pkvs : List (String × Json)), pkvs.lookup "Status" = none →
      extrair_status (.obj pkvs) = .ok (.str "Sem status")) ∧
    (extrair_status (mkStatusProps (.arr [])) = .ok (.str "Sem status")) ∧
    (∀ (first : Json) (rest : List Json),
      extrair_status (mkStatusProps (.arr (first :: rest)))
        = extrair_status (mkStatusProps (.arr [first]))) ∧
    (∀ (kvs : List (String × Json)) (rest : List Json),
      Json.eqStr ((kvs.lookup "type").getD .null) "status" = false →
      extrair_status (mkStatusProps (.arr (.obj kvs :: rest)))
        = .ok (.str "Sem status")) ∧
    (∀ (svs : List (String × Json)) (nm : Json) (rest : List Json),
      svs.lookup "name" = some nm →
      extrair_status (mkStatusProps
          (.arr (.obj [("type", .str "status"), ("status", .obj svs)] :: rest)))
        = .ok nm) ∧
    (∀ (svs : List (String × Json)) (rest : List Json),
      svs.lookup "name" = none →
      extrair_status (mkStatusProps
          (.arr (.obj [("type", .str "status"), ("status", .obj svs)] :: rest)))
        = .ok (.str "Sem status")) := by
  refine ⟨fun pkvs h => ?_, rfl, fun first rest => ?_, fun kvs rest h => ?_,
    fun svs nm rest h => ?_, fun svs rest h => ?_⟩
  · simp [extrair_status, pyGetD_obj, h, pyGetD, pyGet, pyTruthy, ok_bind,
      pure_eq_ok, List.lookup]
  · simp [extrair_status, mkStatusProps, pyGetD_obj, pyGetD, pyGet, pyTruthy,
      pyIndex0, Json.eqStr, ok_bind, pure_eq_ok, List.lookup]
  · simp [extrair_status, mkStatusProps, pyGetD_obj, pyGetD, pyGet, pyTruthy,
      pyIndex0, ok_bind, pure_eq_ok, List.lookup, h]
  · simp [extrair_status, mkStatusProps, pyGetD_obj, pyGetD, pyGet, pyTruthy,
      pyIndex0, Json.eqStr, ok_bind, pure_eq_ok, List.lookup, h]
  · simp [extrair_status, mkStatusProps, pyGetD_obj, pyGetD, pyGet, pyTruthy,
      pyIndex0, Json.eqStr, ok_bind, pure_eq_ok, List.lookup, h]

/-- Witness for C8 at concrete inputs. -/
theorem claim_C8_witness :
    extrair_status (.obj [("Nome", .str "x")]) = .ok (.str "Sem status") ∧
    extrair_status (mkStatusProps
        (.arr (.obj [("type", .str "status"), ("status", .obj [("name", .str "Entrada")])]
          :: [.num 9]))) = .ok (.str "Entrada") ∧
    extrair_status (mkStatusProps (.arr [.obj [("type", .str "number")]]))
      = .ok (.str "Sem status") :=
  ⟨claim_C8_status_first_element.1 [("Nome", .str "x")] rfl,
    claim_C8_status_first_element.2.2.2.2.1 [("name", .str "Entrada")] (.str "Entrada")
      [.num 9] rfl,
    claim_C8_status_first_element.2.2.2.1 [("type", .str "number")] [] rfl⟩

/-- Spec-side contribution of one rollup-array element: a plain-number
element contributes its number, a one-level nested rollup-of-number element
contributes its inner number, null numbers and any other shape contribute
nothing (deeper nesting is not followed). -/
def specElemContrib (item : Json) : ℚ :=
  if (jget item "type" .null).eqStr "number" then
    numOr0 (jget item "number" .null)
  else if (jget item "type" .null).eqStr "rollup" then
    if (jget (jget item "rollup" (.obj [])) "type" .null).eqStr "number" then
      numOr0 (jget (jget item "rollup" (.obj [])) "number" .null)
    else 0
  else 0

/-- Values Python can add to a numeric total (or skip when null). -/
def numOk (v : Json) : Bool :=
  match v with
  | .null => true
  | .num _ => true
  | .bool _ => true
  | _ => false

/-- A rollup-array element the summation loop can process without raising:
a mapping whose `number` value (when its type is `number`) is numeric or
null, and whose `rollup` value (when its type is `rollup`) is a mapping with
the same constraint on its inner `number`. -/
def itemWF (item : Json) : Bool :=
  match item with
  | .obj _ =>
    if (jget item "type" .null).eqStr "number" then
      numOk (jget item "number" .null)
    else if (jget item "type" .null).eqStr "rollup" then
      match jget item "rollup" (.obj []) with
      | .obj _ =>
        if (jget (jget item "rollup" (.obj [])) "type" .null).eqStr "number" then
          numOk (jget (jget item "rollup" (.obj [])) "number" .null)
        else true
      | _ => false
    else true
  | _ => false

/-- The rollup-array loop computes the sum of spec-side element
contributions, over well-formed elements. -/
theorem rollupArraySum_spec (items : List Json) :
    ∀ total : ℚ, (∀ i ∈ items, itemWF i = true) →
      rollupArraySum items total = .ok (total + (items.map specElemContrib).sum) := by
  induction items with
  | nil =>
    intro total _
    simp [rollupArraySum]
  | cons item rest ih =>
    intro total h
    have hi : itemWF item = true := h item (List.mem_cons_self item rest)
    have hr : ∀ i ∈ rest, itemWF i = true := fun i hm => h i (List.mem_cons_of_mem _ hm)
    cases item with
    | null => simp [itemWF] at hi
    | num q => simp [itemWF] at hi
    | str s => simp [itemWF] at hi
    | bool b => simp [itemWF] at hi
    | arr xs => simp [itemWF] at hi
    | obj kvs =>
      simp only [rollupArraySum, pyGet, pyGetD_obj, ok_bind, List.map_cons, List.sum_cons]
      by_cases hty : Json.eqStr ((kvs.lookup "type").getD Json.null) "number" = true
      · simp only [hty, if_true]
        cases hval : (kvs.lookup "number").getD Json.null with
        | null =>
          simp only [hval, Json.isNull, if_true]
          rw [ih total hr]
          simp [specElemContrib, jget, hty, hval, numOr0, pyNumVal]
        | num q =>
          simp only [hval, Json.isNull, Bool.false_eq_true, if_false, pyAdd, pyNumVal, ok_bind]
          rw [ih (total + q) hr]
          simp only [specElemContrib, jget, hty, if_true, hval, numOr0, pyNumVal,
            Option.getD_some, Except.ok.injEq]
          ring
        | bool b =>
          simp only [hval, Json.isNull, Bool.false_eq_true, if_false, pyAdd, pyNumVal, ok_bind]
          rw [ih (total + if b then 1 else 0) hr]
          simp only [specElemContrib, jget, hty, if_true, hval, numOr0, pyNumVal,
            Option.getD_some, Except.ok.injEq]
          ring
        | str s =>
          exfalso
          simp [itemWF, jget, hty, hval, numOk] at hi
        | arr xs =>
          exfalso
          simp [itemWF, jget, hty, hval, numOk] at hi
        | obj kvs2 =>
          exfalso
          simp [itemWF, jget, hty, hval, numOk] at hi
      · simp only [Bool.not_eq_true] at hty
        simp only [hty, Bool.false_eq_true, if_false]
        by_cases hroll : Json.eqStr ((kvs.lookup "type").getD Json.null) "rollup" = true
        · simp only [hroll, if_true, pyGetD_obj, ok_bind]
          cases hin : (kvs.lookup "rollup").getD (Json.obj []) with
          | obj rkvs =>
            simp only [hin, pyGetD_obj, ok_bind]
            by_cases hity : Json.eqStr ((rkvs.lookup "type").getD Json.null) "number" = true
            · simp only [hity, if_true]
              cases hival : (rkvs.lookup "number").getD Json.null with
              | null =>
                simp only [hival, Json.isNull, if_true]
                rw [ih total hr]
                simp [specElemContrib, jget, hty, hroll, hin, hity, hival, numOr0, pyNumVal]
              | num q =>
                simp only [hival, Json.isNull, Bool.false_eq_true, if_false, pyAdd,
                  pyNumVal, ok_bind]
                rw [ih (total + q) hr]
                simp only [specElemContrib, jget, hty, Bool.false_eq_true, if_false,
                  hroll, if_true, hin, hity, hival, numOr0, pyNumVal, Option.getD_some,
                  Except.ok.injEq]
                ring
              | bool b =>
                simp only [hival, Json.isNull, Bool.false_eq_true, if_false, pyAdd,
                  pyNumVal, ok_bind]
                rw [ih (total + if b then 1 else 0) hr]
                simp only [specElemContrib, jget, hty, Bool.false_eq_true, if_false,
                  hroll, if_true, hin, hity, hival, numOr0, pyNumVal, Option.getD_some,
                  Except.ok.injEq]
                ring
              | str s =>
                exfalso
                simp [itemWF, jget, hty, hroll, hin, hity, hival, numOk] at hi
              | arr xs =>
                exfalso
                simp [itemWF, jget, hty, hroll, hin, hity, hival, numOk] at hi
              | obj kvs2 =>
                exfalso
                simp [itemWF, jget, hty, hroll, hin, hity, hival, numOk] at hi
            · simp only [Bool.not_eq_true] at hity
              simp only [hity, Bool.false_eq_true, if_false]
              rw [ih total hr]
              simp [specElemContrib, jget, hty, hroll, hin, hity, numOr0, pyNumVal]
          | null => exfalso; simp [itemWF, jget, hty, hroll, hin] at hi
          | num q => exfalso; simp [itemWF, jget, hty, hroll, hin] at hi
          | str s => exfalso; simp [itemWF, jget, hty, hroll, hin] at hi
          | bool b => exfalso; simp [itemWF, jget, hty, hroll, hin] at hi
          | arr xs => exfalso; simp [itemWF, jget, hty, hroll, hin] at hi
        · simp only [Bool.not_eq_true] at hroll
          simp only [hroll, Bool.false_eq_true, if_false]
          rw [ih total hr]
          simp [specElemContrib, jget, hty, hroll]

/-- A property field that is a rollup of type array whose single element is
the bare number `5` (not a typed mapping). -/
def campoBadArray : Json :=
  .obj [("type", .str "rollup"),
        ("rollup", .obj [("type", .str "array"), ("array", .arr [.num 5])])]

/-- Claim C4, counterexample. The claim says elements of any shape other than
plain-number / nested rollup-of-number contribute nothing to the sum; but a
bare-number element makes `extrair_valor` raise `AttributeError` (`.get` on
an `int`) instead of returning a sum at all. -/
theorem claim_C4_counterexample :
    extrair_valor (.obj [("Quota", campoBadArray)]) "Quota" = .error "AttributeError" ∧
    extrair_valor (.obj [("Quota", campoBadArray)]) "Quota" ≠ .ok (.num 0) := by
  refine ⟨rfl, fun h => ?_⟩
  have h0 : extrair_valor (.obj [("Quota", campoBadArray)]) "Quota"
      = .error "AttributeError" := rfl
  exact Except.noConfusion (h0.symm.trans h)

/-- For a field that is a rollup of type array all of whose elements are
well-formed mappings, `extrair_valor` returns the sum of the spec-side
element contributions. -/
theorem extrair_valor_rollup_array (pkvs kvs rkvs : List (String × Json))
    (fld : String) (items : List Json)
    (h1 : pkvs.lookup fld = some (.obj kvs))
    (h2 : kvs.lookup "type" = some (.str "rollup"))
    (h3 : kvs.lookup "rollup" = some (.obj rkvs))
    (h4 : rkvs.lookup "type" = some (.str "array"))
    (h5 : rkvs.lookup "array" = some (.arr items))
    (hwf : items.all itemWF = true) :
    extrair_valor (.obj pkvs) fld = .ok (.num ((items.map specElemContrib).sum)) := by
  have hwf' : ∀ i ∈ items, itemWF i = true := by simpa [List.all_eq_true] using hwf
  have hsum := rollupArraySum_spec items 0 hwf'
  simp [extrair_valor, pyGet, pyGetD_obj, h1, h2, h3, h4, h5, Json.eqStr,
    Json.isNull, ok_bind, pure_eq_ok, pyIter, hsum]

/-- Claim C4, amended. For every property container whose field is a rollup of
type array all of whose elements are well-formed mappings, value extraction
returns the sum over the array's elements, where a plain-number element
contributes its number, a one-level nested rollup-of-number element
contributes its inner number, null numbers and mappings of any other shape
contribute nothing, and deeper nesting is not followed; when every element is
a plain number the result is exactly their sum.  (A non-mapping element makes
extraction raise instead — see the counterexample.) -/
theorem claim_C4_rollup_array_sum :
    (∀ (pkvs kvs rkvs : List (String × Json)) (fld : String) (items : List Json),
      pkvs.lookup fld = some (.obj kvs) →
      kvs.lookup "type" = some (.str "rollup") →
      kvs.lookup "rollup" = some (.obj rkvs) →
      rkvs.lookup "type" = some (.str "array") →
      rkvs.lookup "array" = some (.arr items) →
      items.all itemWF = true →
      extrair_valor (.obj pkvs) fld = .ok (.num ((items.map specElemContrib).sum))) ∧
    (∀ (fld : String) (qs : List ℚ),
      extrair_valor (.obj [(fld, .obj [("type", .str "rollup"),
          ("rollup", .obj [("type", .str "array"),
            ("array", .arr (qs.map fun q =>
              .obj [("type", .str "number"), ("number", .num q)]))])])]) fld
        = .ok (.num qs.sum)) := by
  refine ⟨extrair_valor_rollup_array, fun fld qs => ?_⟩
  have h := extrair_valor_rollup_array
    [(fld, .obj [("type", .str "rollup"),
        ("rollup", .obj [("type", .str "array"),
          ("array", .arr (qs.map fun q =>
            .obj [("type", .str "number"), ("number", .num q)]))])])]
    [("type", .str "rollup"),
     ("rollup", .obj [("type", .str "array"),
        ("array", .arr (qs.map fun q =>
          .obj [("type", .str "number"), ("number", .num q)]))])]
    [("type", .str "array"),
     ("array", .arr (qs.map fun q =>
        .obj [("type", .str "number"), ("number", .num q)]))]
    fld (qs.map fun q => .obj [("type", .str "number"), ("number", .num q)])
    (by simp [List.lookup]) rfl rfl rfl rfl
    (by simp [List.all_eq_true, itemWF, jget, numOk, List.lookup])
  rw [h]
  simp only [List.map_map, Except.ok.injEq, Json.num.injEq]
  have hc : (specElemContrib ∘ fun q =>
      Json.obj [("type", Json.str "number"), ("number", Json.num q)]) = fun q => q := by
    funext q
    simp [specElemContrib, jget, numOr0, pyNumVal, List.lookup, Json.eqStr]
  rw [hc]
  simp

/-- Witness elements for C4: a plain number 3, a nested rollup-of-number 4,
and a null number. -/
def c4Items : List Json :=
  [.obj [("type", .str "number"), ("number", .num 3)],
   .obj [("type", .str "rollup"),
         ("rollup", .obj [("type", .str "number"), ("number", .num 4)])],
   .obj [("type", .str "number"), ("number", .null)]]

/-- Witness field for C4: a rollup of type array holding `c4Items`. -/
def c4Campo : Json :=
  .obj [("type", .str "rollup"),
        ("rollup", .obj [("type", .str "array"), ("array", .arr c4Items)])]

/-- Witness for C4 at a concrete rollup-array container. -/
theorem claim_C4_witness :
    ([("Quota", c4Campo)].lookup "Quota" = some c4Campo) ∧
    (c4Items.all itemWF = true) ∧
    extrair_valor (.obj [("Quota", c4Campo)]) "Quota"
      = .ok (.num ((c4Items.map specElemContrib).sum)) :=
  ⟨rfl, rfl,
    claim_C4_rollup_array_sum.1 [("Quota", c4Campo)]
      [("type", .str "rollup"),
       ("rollup", .obj [("type", .str "array"), ("array", .arr c4Items)])]
      [("type", .str "array"), ("array", .arr c4Items)]
      "Quota" c4Items rfl rfl rfl rfl rfl rfl⟩

/-- A deal record whose `Valor` property holds the key `number` mapped to
null (and no `Status`, so its status label defaults to `"Sem status"`). -/
def dealNullValor : Json :=
  .obj [("properties", .obj [("Valor", .obj [("number", .null)])])]

/-- A deal record whose `Valor` property lacks the `number` key entirely. -/
def dealSemNumber : Json :=
  .obj [("properties", .obj [("Valor", .obj [])])]

/-- Claim C9. The aggregation is not total over JSON-shaped deal records: for a
deal whose `Valor` property maps `number` to null and whose status is not
`"Contratado"`, `calcular_metricas` raises a `TypeError` when adding the null
value to the open-value total; the default `0` applies only when the `number`
key is absent, in which case the same aggregation succeeds. -/
theorem claim_C9_null_valor_type_error :
    calcular_metricas [dealNullValor] [] 2025 = .error "TypeError" ∧
    calcular_metricas [dealSemNumber] [] 2025 = .ok
      { total := 1, por_status := bump [] (.str "Sem status"),
        por_cidade := bump [] (.str "Não informada"), valor_total := 0 + 0,
        fechados := 0, fechado_valor := 0, potencial_valor := 0,
        restante := META_FINANCEIRA - 0, anos_restantes := 2030 - 2025,
        necessario_por_ano :=
          (META_FINANCEIRA - 0) / ((max (2030 - 2025 : ℤ) 1 : ℤ) : ℚ) } :=
  ⟨rfl, rfl⟩

/-- A deal record whose `Negocio` property maps `title` to an empty array. -/
def dealTituloVazio : Json :=
  .obj [("properties", .obj [("Negocio", .obj [("title", .arr [])])])]

/-- A deal record whose `Negocio` property lacks the `title` key entirely. -/
def dealSemTitulo : Json :=
  .obj [("properties", .obj [("Negocio", .obj [])])]

/-- Claim C10. Table rendering is not total over JSON-shaped deal records: for a
deal whose `Negocio` property maps `title` to an empty array, name extraction
indexes element 0 of that empty array and raises `IndexError`; the one-element
default list applies only when the `title` key is absent entirely, in which
case the record is simply filtered out as unnamed. -/
theorem claim_C10_empty_title_index_error :
    projetos_lista [dealTituloVazio] = .error "IndexError" ∧
    projetos_lista [dealSemTitulo] = .ok [] :=
  ⟨rfl, rfl⟩

/-- The first element of a JSON array, with a default otherwise
(spec-side reading of `title[0]` on the success paths). -/
def jfirst (j d : Json) : Json :=
  match j with
  | .arr (x :: _) => x
  | _ => d

/-- Spec-side reading of a deal record's name:
`properties.Negocio.title[0].plain_text`, defaulting to `"Sem nome"`. -/
def specDealName (p : Json) : Json :=
  jget (jfirst (jget (jget (jget p "properties" (.obj [])) "Negocio" (.obj []))
    "title" (.arr [.obj []])) (.obj [])) "plain_text" (.str "Sem nome")

/-- Spec-side reading of a deal record's city label:
`properties.Cidade.select.name`, defaulting to `"Não informada"`. -/
def specDealCidade (p : Json) : Json :=
  jget (jget (jget (jget p "properties" (.obj [])) "Cidade" (.obj []))
    "select" (.obj [])) "name" (.str "Não informada")

/-- Spec-side display transformation of a name: a string name longer than 30
characters is replaced by its first 30 characters followed by `"..."`; any
other name is shown unchanged. -/
def specDisplay (n : Json) : Json :=
  match n with
  | .str s => if s.length > 30 then .str (s.take 30 ++ "...") else n
  | _ => n

/-- A deal record counts as named when its extracted name is not the
`"Sem nome"` sentinel. -/
def specNamed (p : Json) : Bool :=
  !(specDealName p).eqStr "Sem nome"

/-- The spec-side table row of a deal record. -/
def specRow (p : Json) : Row :=
  ⟨specDisplay (specDealName p), specDealStatus p, specDealCidade p⟩

/-- The spec-side table: those among the first 15 deals that are named, in
order, rendered through `specRow`. -/
def specTable (ps : List Json) : List Row :=
  ((ps.take 15).filter specNamed).map specRow

theorem projCidade_eq_ok {props c : Json} (h : projCidade props = .ok c) :
    c = jget (jget (jget props "Cidade" (.obj [])) "select" (.obj []))
      "name" (.str "Não informada") := by
  obtain ⟨a, ha, h⟩ := exc_bind_eq_ok h
  obtain ⟨b, hb, h⟩ := exc_bind_eq_ok h
  rw [pyGetD_eq_ok ha] at hb
  rw [pyGetD_eq_ok hb] at h
  exact pyGetD_eq_ok h

theorem pyIndex0_getD {t v d n : Json} {k : String}
    (h0 : pyIndex0 t = .ok v) (h1 : pyGetD v k d = .ok n) :
    n = jget (jfirst t (.obj [])) k d := by
  cases t with
  | arr xs =>
    cases xs with
    | nil => simp [pyIndex0] at h0
    | cons x rest =>
      injection h0 with h0
      subst h0
      rw [pyGetD_eq_ok h1]
      rfl
  | str s =>
    cases hc : s.data with
    | nil => simp [pyIndex0, hc] at h0
    | cons c cs =>
      simp only [pyIndex0, hc] at h0
      injection h0 with h0
      subst h0
      simp [pyGetD] at h1
  | null => simp [pyIndex0] at h0
  | num q => simp [pyIndex0] at h0
  | bool b => simp [pyIndex0] at h0
  | obj kvs => simp [pyIndex0] at h0

theorem truncNome_eq_ok {nome d : Json} (h : truncNome nome = .ok d) :
    d = specDisplay nome := by
  cases nome with
  | str s =>
    by_cases hl : s.length > 30
    · simp_all [truncNome, pyLen, specDisplay, ok_bind, pure_eq_ok, hl]
    · simp only [truncNome, pyLen, ok_bind] at h
      rw [if_neg hl] at h
      rw [pure_eq_ok] at h
      injection h with h
      subst h
      simp [specDisplay, if_neg hl]
  | arr xs =>
    by_cases hl : xs.length > 30
    · simp [truncNome, pyLen, ok_bind, pure_eq_ok, hl] at h
    · simp_all [truncNome, pyLen, specDisplay, ok_bind, pure_eq_ok, hl]
  | obj kvs =>
    by_cases hl : kvs.length > 30
    · simp [truncNome, pyLen, ok_bind, pure_eq_ok, hl] at h
    · simp_all [truncNome, pyLen, specDisplay, ok_bind, pure_eq_ok, hl]
  | null => simp [truncNome, pyLen, err_bind] at h
  | num q => simp [truncNome, pyLen, err_bind] at h
  | bool b => simp [truncNome, pyLen, err_bind] at h

/-- Whenever the table-row construction succeeds, its outcome is the
spec-side one: filtered out exactly when unnamed, otherwise the spec row. -/
theorem mkRow_eq_ok {p : Json} {o : Option Row} (h : mkRow p = .ok o) :
    o = if specNamed p then some (specRow p) else none := by
  simp only [mkRow] at h
  obtain ⟨props, hprops, h⟩ := exc_bind_eq_ok h
  obtain ⟨neg, hneg, h⟩ := exc_bind_eq_ok h
  obtain ⟨title, htitle, h⟩ := exc_bind_eq_ok h
  obtain ⟨first, hfirst, h⟩ := exc_bind_eq_ok h
  obtain ⟨nome, hnome, h⟩ := exc_bind_eq_ok h
  obtain ⟨status, hst, h⟩ := exc_bind_eq_ok h
  obtain ⟨cidade, hcid, h⟩ := exc_bind_eq_ok h
  have hname : specDealName p = nome := by
    simp only [specDealName]
    rw [pyIndex0_getD hfirst hnome, pyGetD_eq_ok htitle, pyGetD_eq_ok hneg,
      pyGetD_eq_ok hprops]
  have hsd : specDealStatus p = status := by
    simp only [specDealStatus]
    rw [projStatus_eq_ok hst, pyGetD_eq_ok hprops]
  have hcd : specDealCidade p = cidade := by
    simp only [specDealCidade]
    rw [projCidade_eq_ok hcid, pyGetD_eq_ok hprops]
  cases hC : Json.eqStr nome "Sem nome" with
  | true =>
    simp only [hC, if_true, pure_eq_ok] at h
    injection h with h
    subst h
    simp [specNamed, hname, hC]
  | false =>
    simp only [hC, Bool.false_eq_true, if_false] at h
    obtain ⟨disp, hdisp, h⟩ := exc_bind_eq_ok h
    rw [pure_eq_ok] at h
    injection h with h
    subst h
    simp [specNamed, specRow, hname, hsd, hcd, hC, truncNome_eq_ok hdisp]

/-- Folding the table loop appends exactly the spec-side rows of the named
deals, in order. -/
theorem tableFold_spec (ps : List Json) :
    ∀ (acc rows : List Row), ps.foldlM tableStep acc = .ok rows →
      rows = acc ++ (ps.filter specNamed).map specRow := by
  induction ps with
  | nil =>
    intro acc rows h
    rw [List.foldlM_nil, pure_eq_ok] at h
    injection h with h
    subst h
    simp
  | cons p ps ih =>
    intro acc rows h
    rw [List.foldlM_cons] at h
    obtain ⟨acc1, h1, h2⟩ := exc_bind_eq_ok h
    simp only [tableStep] at h1
    obtain ⟨o, ho, h1⟩ := exc_bind_eq_ok h1
    rw [mkRow_eq_ok ho] at h1
    cases hnp : specNamed p with
    | true =>
      simp only [hnp, if_true, pure_eq_ok] at h1
      injection h1 with h1
      subst h1
      rw [ih _ _ h2]
      simp [List.filter_cons, hnp]
    | false =>
      simp only [hnp, Bool.false_eq_true, if_false, pure_eq_ok] at h1
      injection h1 with h1
      subst h1
      rw [ih _ _ h2]
      simp [List.filter_cons, hnp]

/-- A deal record named `s`. -/
def dealNamed (s : String) : Json :=
  .obj [("properties", .obj [("Negocio", .obj
    [("title", .arr [.obj [("plain_text", .str s)]])])])]

/-- An unnamed deal record (no `title` key, so the name defaults to the
`"Sem nome"` sentinel). -/
def dealSemNome : Json :=
  .obj [("properties", .obj [("Negocio", .obj [])])]

/-- Sixteen deals: one unnamed followed by fifteen named ones. -/
def exDeals16 : List Json :=
  dealSemNome :: (List.replicate 14 (dealNamed "N") ++ [dealNamed "X"])

/-- Claim C5, counterexample. The claim says the table contains exactly the
first 15 deals whose name is not the sentinel; but the code slices
`projetos[:15]` *before* filtering: on sixteen deals whose first record is
unnamed, the table has only 14 rows while the first 15 named deals number
15. -/
theorem claim_C5_counterexample :
    (match projetos_lista exDeals16 with
     | .ok rows => rows.length
     | .error _ => 0) = 14 ∧
    ((exDeals16.filter specNamed).take 15).length = 15 :=
  ⟨rfl, rfl⟩

/-- Claim C5, amended. Whenever table construction succeeds, the table
contains exactly those among the *first 15 deals* whose extracted name is not
the `"Sem nome"` sentinel, in order; a displayed string name longer than 30
characters is replaced by its first 30 characters followed by `"..."`, and
names of length at most 30 are shown unchanged. -/
theorem claim_C5_capped_table :
    (∀ (projetos : List Json) (rows : List Row),
      projetos_lista projetos = .ok rows → rows = specTable projetos) ∧
    (∀ s : String, 30 < s.length →
      specDisplay (.str s) = .str (s.take 30 ++ "...")) ∧
    (∀ s : String, s.length ≤ 30 → specDisplay (.str s) = .str s) := by
  refine ⟨fun ps rows h => ?_, fun s hs => ?_, fun s hs => ?_⟩
  · simp only [projetos_lista] at h
    have := tableFold_spec (ps.take 15) [] rows h
    simpa [specTable] using this
  · simp [specDisplay, hs]
  · simp only [specDisplay]
    rw [if_neg (by omega)]

/-- A deal whose name has 31 characters. -/
def dealNomeLongo : Json := dealNamed "AAAAAAAAAAAAAAAAAAAAAAAAAAAAAAA"

/-- Witness for C5 at a concrete two-deal input (one long-named, one
unnamed). -/
theorem claim_C5_witness :
    projetos_lista [dealNomeLongo, dealSemNome]
      = .ok (specTable [dealNomeLongo, dealSemNome]) ∧
    30 < ("AAAAAAAAAAAAAAAAAAAAAAAAAAAAAAA" : String).length ∧
    specDisplay (.str "AAAAAAAAAAAAAAAAAAAAAAAAAAAAAAA")
      = .str (("AAAAAAAAAAAAAAAAAAAAAAAAAAAAAAA" : String).take 30 ++ "...") := by
  refine ⟨?_, by decide,
    claim_C5_capped_table.2.1 "AAAAAAAAAAAAAAAAAAAAAAAAAAAAAAA" (by decide)⟩
  have h : projetos_lista [dealNomeLongo, dealSemNome] = .ok [specRow dealNomeLongo] := rfl
  rw [h, claim_C5_capped_table.1 [dealNomeLongo, dealSemNome] [specRow dealNomeLongo] h]
